import Mathlib

/-!
Shallow embedding of the dbt-glue adapter's session/statement control plane
(`dbt/adapters/glue/gluedbapi/connection.py`) and of the column filtering in
`dbt/adapters/glue/impl.py`, together with proofs of the behavioural claims
about them.

Remote interactions (the boto3 Glue client) are modelled by an oracle
(`World`) giving the outcome of each remote call, and by an effect trace
(`Eff` list) accumulated in the connection state, so that "issues a remote
call" / "creates a session" are observable propositions.
-/

namespace DbtGlue

/- String constants of `class GlueSessionState` in connection.py. -/
namespace GlueSessionState

def READY : String := "READY"

def FAILED : String := "FAILED"

def PROVISIONING : String := "PROVISIONING"

def CLOSED : String := "CLOSED"

end GlueSessionState

/-- The exceptions that can escape the modelled code.
`failedToConnect` is `dbt.exceptions.FailedToConnectException` (the spec's
`ConnectFailure`); `timeoutError` is the builtin `TimeoutError` raised by the
provisioning poll loop (the spec's `TimeoutFailure`); `typeError` is the
`TypeError` from concatenating `None` to a log string; `statementError`
stands for a failure raised by `GlueStatement.execute`; `clientError` is a
botocore `ClientError` escaping a remote call. -/
inductive GlueErr
  | failedToConnect
  | timeoutError
  | typeError
  | statementError
  | clientError
  deriving DecidableEq

/-- The two initialization statements submitted by `_init_session`:
the SQLPROXY helper source and `spark.sql('use <database>')`. -/
inductive StmtCode
  | sqlproxy
  | useDatabase (db : String)
  deriving DecidableEq

/-- Observable remote calls made through the boto3 Glue client. -/
inductive Eff
  | createSession (reqId : String)
  | getSession (id : Option String)
  | deleteSession (id : String)
  | getStatements (sid : Option String)
  | cancelStatement (sid : Option String) (id : String)
  | runStatement (sid : Option String) (code : StmtCode)
  deriving DecidableEq

/-- One entry of the `get_statements` response (fields used by `cancel`). -/
structure GlueStatementInfo where
  Id : String
  State : String
  deriving DecidableEq

/-- The fields of `GlueCredentials` read or written by connection.py's
control flow.  `session_id` is the persisted "current session" (may be
absent); `session_provisionning_timeout_in_seconds` is the provisioning
deadline (an integer number of seconds from the profile). -/
structure GlueCredentials where
  session_id : Option String
  database : String
  session_provisionning_timeout_in_seconds : ℕ
  deriving DecidableEq

/-- The mutable attributes of a `GlueConnection`.
`_session` models the `self._session` dict: `none` when unset (falsy),
`some i` for `{"Session": {...}}` where `i` is the value of
`.get("Session", {}).get("Id", None)`.  `_state` is the cached session
state string (or `None`). -/
structure GlueConnection where
  credentials : GlueCredentials
  _session : Option (Option String)
  _state : Option String
  deriving DecidableEq

/-- Python truthiness of an optional string (`None` and `""` are falsy). -/
def truthy : Option String → Bool
  | none => false
  | some s => !(s == "")

/-- The `session_id` property: `None` when `self._session` is falsy, else
the `Id` found under the `Session` key. -/
def GlueConnection.session_id (c : GlueConnection) : Option String :=
  match c._session with
  | none => none
  | some i => i

/-- A connection state together with its embedding bookkeeping: how many
`get_session` calls were made so far (to index the oracle) and the trace of
remote calls issued. -/
structure St where
  conn : GlueConnection
  getCount : ℕ
  effs : List Eff
  deriving DecidableEq

/-- The oracle for remote behaviour: the outcome of the single
`create_session` call, the outcome of the n-th `get_session` call
(`Except.ok status?` gives `response.get("Session",{}).get("Status")`),
whether each of the two `_init_session` statements succeeds, the outcome of
`delete_session`, and the statement list returned by `get_statements`. -/
structure World where
  create : Except Unit (Option String)
  gets : ℕ → Except Unit (Option String)
  init1 : Bool
  init2 : Bool
  delete : Except Unit Unit
  statements : List GlueStatementInfo

/-- The `state` property of `GlueConnection`:
if the cached `_state` is FAILED or READY it is returned with no remote
call; otherwise `get_session(Id=self.session_id)` is issued, its reported
status is cached and returned, and any error is swallowed by caching and
returning CLOSED. -/
def stateProp (w : World) (s : St) : St × Option String :=
  if s.conn._state = some GlueSessionState.FAILED ∨
      s.conn._state = some GlueSessionState.READY then
    (s, s.conn._state)
  else
    match w.gets s.getCount with
    | Except.ok status =>
        ({ conn := { s.conn with _state := status },
           getCount := s.getCount + 1,
           effs := s.effs ++ [Eff.getSession s.conn.session_id] }, status)
    | Except.error _ =>
        ({ conn := { s.conn with _state := some GlueSessionState.CLOSED },
           getCount := s.getCount + 1,
           effs := s.effs ++ [Eff.getSession s.conn.session_id] },
         some GlueSessionState.CLOSED)

/-- Exit of the readiness poll loop `for elapsed in wait(1): ...` of
`_start_session`: the session became READY, or `elapsed > timeout` was
observed at iteration `k` (so `TimeoutError` is raised), or the modelling
fuel ran out (the source loop would keep running). -/
inductive PollExit
  | ready (sess : Option (Option String))
  | timedOut (k : ℕ)
  | fuelOut
  deriving DecidableEq

/-- Outcome of a Python call: normal return with the post-call state,
a raised exception with the state at raise time, or divergence (the
modelling fuel for an unbounded loop ran out). -/
inductive Outcome (α : Type)
  | ok (s : St) (a : α)
  | raised (s : St) (err : GlueErr)
  | diverge

/-- The readiness poll loop of `_start_session`.  `e k` is the elapsed
time (in seconds, as yielded by `waiter.wait(1)`) at the start of iteration
`k`; each iteration evaluates the `state` property once, returns
`self._session` when it reads READY, and raises `TimeoutError` when
`elapsed > timeout`. -/
def pollLoop (w : World) (e : ℕ → ℚ) (T : ℕ) : ℕ → ℕ → St → St × PollExit
  | 0, _, s => (s, PollExit.fuelOut)
  | fuel + 1, k, s =>
    let p := stateProp w s
    if p.2 = some GlueSessionState.READY then (p.1, PollExit.ready p.1.conn._session)
    else if (T : ℚ) < e k then (p.1, PollExit.timedOut k)
    else pollLoop w e T fuel (k + 1) p.1

/-- State right after a successful `create_session` call in
`_start_session`: `self._session` is set to the response and the creation
request (with its uuid-derived id) is on the wire. -/
def createdSt (reqId : String) (resp : Option String) (s : St) : St :=
  { conn := { s.conn with _session := some resp },
    getCount := s.getCount,
    effs := s.effs ++ [Eff.createSession reqId] }

/-- Model of `_start_session`: builds the request (the argument bag has no
observable effect here beyond the requested id `dbt-glue-<uuid>`), calls
`create_session`; on `ClientError` sets `_state = FAILED` and raises
`FailedToConnectException`; on success enters the readiness poll loop. -/
def startSession (w : World) (e : ℕ → ℚ) (uuid : String) (fuel : ℕ) (s : St) :
    Outcome (Option (Option String)) :=
  let reqId := "dbt-glue-" ++ uuid
  match w.create with
  | Except.error _ =>
      Outcome.raised
        { s with conn := { s.conn with _state := some GlueSessionState.FAILED },
                 effs := s.effs ++ [Eff.createSession reqId] }
        GlueErr.failedToConnect
  | Except.ok resp =>
      let s1 := createdSt reqId resp s
      match pollLoop w e s1.conn.credentials.session_provisionning_timeout_in_seconds
          fuel 0 s1 with
      | (s2, PollExit.ready sess) => Outcome.ok s2 sess
      | (s2, PollExit.timedOut _) => Outcome.raised s2 GlueErr.timeoutError
      | (_, PollExit.fuelOut) => Outcome.diverge

/-- Model of `_init_session`: logs `"... " + self.session_id` (a `TypeError` when the
id is `None`), then runs the SQLPROXY helper installation and the
`use <database>` statement through `GlueStatement.execute`.
Modelled from the spec: `GlueStatement` (gluedbapi/commons.py) is not in
src/; per the spec, failure of either initialization statement is a
connect-time fatal error, modelled by the `init1`/`init2` oracle bits. -/
def initSession (w : World) (s : St) : Outcome Unit :=
  match s.conn.session_id with
  | none => Outcome.raised s GlueErr.typeError
  | some sid =>
    let s1 := { s with effs := s.effs ++ [Eff.runStatement (some sid) StmtCode.sqlproxy] }
    if w.init1 then
      let s2 := { s1 with
        effs := s1.effs ++ [Eff.runStatement (some sid) (StmtCode.useDatabase s.conn.credentials.database)] }
      if w.init2 then Outcome.ok s2 () else Outcome.raised s2 GlueErr.statementError
    else Outcome.raised s1 GlueErr.statementError

/-- The tail of `connect()` shared by all branches (lines 41-43):
`self._init_session()`, then `self.credentials.session_id = self.session_id`,
then `return self.session_id`. -/
def afterSession (w : World) (s : St) : Outcome (Option String) :=
  match initSession w s with
  | Outcome.raised s' err => Outcome.raised s' err
  | Outcome.diverge => Outcome.diverge
  | Outcome.ok s' _ =>
    let sid := s'.conn.session_id
    Outcome.ok
      { s' with conn := { s'.conn with
          credentials := { s'.conn.credentials with session_id := sid } } }
      sid

/-- The reuse branch's first assignment (line 34-36):
`self._session = {"Session": {"Id": self.credentials.session_id}}`. -/
def reuseSt (s : St) : St :=
  { s with conn := { s.conn with _session := some s.conn.credentials.session_id } }

/-- Model of `connect()`: without a persisted credentials session id, start a new
session; otherwise adopt the persisted id, evaluate `self.state` once for
the debug log (a `TypeError` if it is `None`) and once for the CLOSED
check, starting a fresh session when that second read is CLOSED.  Then run
`_init_session`, persist the session id into the credentials, and return
it. -/
def connect (w : World) (e : ℕ → ℚ) (uuid : String) (fuel : ℕ) (s : St) :
    Outcome (Option String) :=
  if truthy s.conn.credentials.session_id = false then
    match startSession w e uuid fuel s with
    | Outcome.raised s' err => Outcome.raised s' err
    | Outcome.diverge => Outcome.diverge
    | Outcome.ok s' _ => afterSession w s'
  else
    if (stateProp w (reuseSt s)).2 = none then
      Outcome.raised (stateProp w (reuseSt s)).1 GlueErr.typeError
    else
      if (stateProp w (stateProp w (reuseSt s)).1).2 = some GlueSessionState.CLOSED then
        match startSession w e uuid fuel (stateProp w (stateProp w (reuseSt s)).1).1 with
        | Outcome.raised s' err => Outcome.raised s' err
        | Outcome.diverge => Outcome.diverge
        | Outcome.ok s' sess =>
            afterSession w { s' with conn := { s'.conn with _session := sess } }
      else afterSession w (stateProp w (stateProp w (reuseSt s)).1).1

/-- Model of `close_session()`: when `self.credentials.session_id` is truthy, call
`delete_session(Id=...)` (whose `ClientError`, if any, propagates);
otherwise do nothing. -/
def close_session (w : World) (s : St) : Outcome Unit :=
  match s.conn.credentials.session_id with
  | none => Outcome.ok s ()
  | some sid =>
    if sid == "" then Outcome.ok s ()
    else
      let s1 := { s with effs := s.effs ++ [Eff.deleteSession sid] }
      match w.delete with
      | Except.ok _ => Outcome.ok s1 ()
      | Except.error _ => Outcome.raised s1 GlueErr.clientError

/-- Model of `cancel_statement(statement_id)`: one `cancel_statement` remote call
addressed by the current `session_id`. -/
def cancel_statement (s : St) (statement_id : String) : St :=
  { s with effs := s.effs ++ [Eff.cancelStatement s.conn.session_id statement_id] }

/-- Model of `cancel()`: list the statements of the current session and cancel each
one whose `State` is in `["RUNNING"]`. -/
def cancel (w : World) (s : St) : St :=
  let s0 := { s with effs := s.effs ++ [Eff.getStatements s.conn.session_id] }
  w.statements.foldl
    (fun acc stmt =>
      if stmt.State ∈ ["RUNNING"] then cancel_statement acc stmt.Id else acc)
    s0

/-- Number of `create_session` calls in an effect trace. -/
def countCreates (l : List Eff) : ℕ :=
  (l.filter fun eff => match eff with
    | Eff.createSession _ => true
    | _ => false).length

/- ----------------------------------------------------------------- -/
/- GlueAdapter.get_columns_in_relation (impl.py)                      -/
/- ----------------------------------------------------------------- -/

/-- The list `GlueAdapter.HUDI_METADATA_COLUMNS` (impl.py lines 38-44). -/
def HUDI_METADATA_COLUMNS : List String :=
  ["_hoodie_commit_time",
   "_hoodie_commit_seqno",
   "_hoodie_record_key",
   "_hoodie_partition_path",
   "_hoodie_file_name"]

/-- The fields of dbt's base `Column` used here; `Column(column=..,
dtype=..)` as constructed in `get_columns_in_relation`. -/
structure Column where
  column : String
  dtype : String
  deriving DecidableEq

/-- dbt-core's base `Column.name` property returns the `column` field
(external dbt-core class, modelled by its documented accessor). -/
def Column.name (c : Column) : String := c.column

/-- Model of `GlueAdapter.get_columns_in_relation`: the records fetched by the
`describe` cursor (each contributing `Column(column=record[0],
dtype=record[1])`), or `none` when the describe raised (leaving the
accumulated list empty); then the Hudi metadata columns are stripped by
name. -/
def get_columns_in_relation (fetched : Option (List (String × String))) :
    List Column :=
  let columns : List Column :=
    match fetched with
    | some records => records.map (fun r => { column := r.1, dtype := r.2 })
    | none => []
  columns.filter (fun x => !(HUDI_METADATA_COLUMNS.contains x.name))

/- ----------------------------------------------------------------- -/
/- The SQLPROXY remote helper (class SqlWrapper2, connection.py)      -/
/- ----------------------------------------------------------------- -/

namespace SqlWrapper2

/-- The dataframe produced by `spark.sql(sql)`, as far as the helper reads
it: the schema fields (name, `str(dataType)`) and the collected records,
each a name-to-value mapping (values kept abstract as strings).
`df.count()` equals the number of collected records. -/
structure DF where
  schema : List (String × String)
  rows : List (List (String × String))
  deriving DecidableEq

/-- The JSON envelopes the helper serializes: the null-schema variant
`{"type":"results","sql":sql,"schema":null,"results":null}` and the tabular
variant `{"type":"results","rowcount":..,"results":[{"type":"record",
"data":..}..],"description":[{"name":..,"type":..}..]}`. -/
inductive Envelope
  | nullSchema (sql : String)
  | table (rowcount : ℕ) (results : List (List (String × String)))
      (description : List (String × String))
  deriving DecidableEq

/-- Python `str.split(sep)` for a one-character separator, on the
character list of the string. -/
def splitOnChar (c : Char) : List Char → List (List Char)
  | [] => [[]]
  | x :: xs =>
    match splitOnChar c xs with
    | [] => [[]]
    | h :: t => if x = c then [] :: h :: t else (x :: h) :: t

/-- Lookup `record[f.name]` for a collected record (fields are assumed present,
as Spark guarantees for schema fields). -/
def lookupField (record : List (String × String)) (n : String) : String :=
  (record.lookup n).getD ""

/-- The tabular envelope built from a dataframe: `rowcount = df.count()`,
each record projected onto the schema field names in schema order, and the
`description` of (name, dataType) pairs. -/
def tableEnvelope (df : DF) : Envelope :=
  Envelope.table df.rows.length
    (df.rows.map (fun record => df.schema.map (fun f => (f.1, lookupField record f.1))))
    (df.schema.map (fun f => (f.1, f.2)))

/-- The single-statement path of `SqlWrapper2.execute` (no `";"` in `sql`):
run `spark.sql(sql)`; when the schema is empty, with `output=True` the
null-schema envelope is printed and — the `return` being absent in that
branch — control falls through to also build and print the tabular
envelope; with `output=False` the null-schema envelope is returned.
Otherwise the tabular envelope is printed (`output=True`, returning `None`)
or returned (`output=False`).
Result: (the envelopes printed to stdout, the value returned). -/
def executeSingle (spark : String → DF) (sql : String) (output : Bool) :
    List Envelope × Option Envelope :=
  let df := spark sql
  if df.schema.length = 0 then
    if output then
      ([Envelope.nullSchema sql, tableEnvelope df], none)
    else
      ([], some (Envelope.nullSchema sql))
  else
    if output then ([tableEnvelope df], none)
    else ([], some (tableEnvelope df))

/-- Model of `SqlWrapper2.execute(sql, output)`: when `";" in sql`, split on `";"`
and loop: each non-empty fragment that equals `queries[-1]` (string
equality, not position) is executed with `output=True` and its return value
becomes the response; every other non-empty fragment is executed with
`output=False`.  The fragments contain no `";"`, so the recursive
`cls.execute` call resolves to the single-statement path (see
`execute_on_fragment`). -/
def execute (spark : String → DF) (sql : String) (output : Bool) :
    List Envelope × Option Envelope :=
  if sql.data.contains ';' then
    let queries := (splitOnChar ';' sql.data).map String.mk
    let lastq := queries.getLastD ""
    queries.foldl
      (fun acc q =>
        if q.length > 0 then
          if q = lastq then
            let r := executeSingle spark q true
            (acc.1 ++ r.1, r.2)
          else
            let r := executeSingle spark q false
            (acc.1 ++ r.1, acc.2)
        else acc)
      ([], none)
  else executeSingle spark sql output

/-- A spark oracle whose every statement yields a one-column, one-row
dataframe (a plain `select 1`-style query). -/
def sparkOne : String → DF :=
  fun _ => { schema := [("a", "int")], rows := [[("a", "1")]] }

/-- A spark oracle whose every statement yields a dataframe with an empty
schema (a DDL/assignment statement producing no tabular output). -/
def sparkEmpty : String → DF := fun _ => { schema := [], rows := [] }

end SqlWrapper2

/- ----------------------------------------------------------------- -/
/- Fixtures and helpers for the theorems                              -/
/- ----------------------------------------------------------------- -/

/-- The state carried by a non-diverging outcome. -/
def outSt {α : Type} : Outcome α → Option St
  | Outcome.ok s _ => some s
  | Outcome.raised s _ => some s
  | Outcome.diverge => none

/-- A canonical poll clock with strictly positive scheduling overhead:
elapsed 0 at the first check, `k + 1/2` seconds at the start of iteration
`k ≥ 1` (each one-second sleep plus overhead). -/
def eStar : ℕ → ℚ := fun k => if k = 0 then 0 else (k : ℚ) + 1 / 2

/-- Credentials with a persisted session id. -/
def credsDemo : GlueCredentials :=
  { session_id := some "sid-1", database := "db",
    session_provisionning_timeout_in_seconds := 1 }

/-- Credentials with no persisted session id. -/
def credsFresh : GlueCredentials :=
  { session_id := none, database := "db",
    session_provisionning_timeout_in_seconds := 1 }

/-- A connection that has just observed READY for its session `sid-1`
(the state right after a successful `connect()`). -/
def sReady : St :=
  { conn := { credentials := credsDemo, _session := some (some "sid-1"),
              _state := some "READY" },
    getCount := 0, effs := [] }

/-- A fresh connection: nothing cached, no persisted session id. -/
def sFresh : St :=
  { conn := { credentials := credsFresh, _session := none, _state := none },
    getCount := 0, effs := [] }

/-- A world whose `get_session` always errors and whose other calls
succeed. -/
def wErr : World :=
  { create := Except.ok (some "sid-new"), gets := fun _ => Except.error (),
    init1 := true, init2 := true, delete := Except.ok (), statements := [] }

/-- A world whose `create_session` call raises `ClientError`. -/
def wCreateFail : World :=
  { create := Except.error (), gets := fun _ => Except.ok (some "READY"),
    init1 := true, init2 := true, delete := Except.ok (), statements := [] }

/-- A world whose session never leaves PROVISIONING. -/
def wStuck : World :=
  { create := Except.ok (some "sid-new"),
    gets := fun _ => Except.ok (some "PROVISIONING"),
    init1 := true, init2 := true, delete := Except.ok (), statements := [] }

/-- A world with a mixed statement list for `cancel()`. -/
def wStmts : World :=
  { create := Except.ok (some "sid-new"), gets := fun _ => Except.ok (some "READY"),
    init1 := true, init2 := true, delete := Except.ok (),
    statements := [⟨"st1", "RUNNING"⟩, ⟨"st2", "AVAILABLE"⟩,
                   ⟨"st3", "RUNNING"⟩, ⟨"st4", "ERROR"⟩] }

/- ----------------------------------------------------------------- -/
/- Theorems                                                           -/
/- ----------------------------------------------------------------- -/

namespace SqlWrapper2

/-- On a fragment without `";"`, `execute` is the single-statement path:
this justifies unfolding the source's recursive `cls.execute(q, ...)` calls
into `executeSingle` inside the split loop. -/
theorem execute_on_fragment (spark : String → DF) (q : String) (o : Bool)
    (h : q.data.contains ';' = false) :
    execute spark q o = executeSingle spark q o := by
  simp only [execute, h, Bool.false_eq_true, if_false]

/-- C5: the claim says every statement but the last runs without emitting
output and exactly one envelope — the final statement's — is emitted; but
the source compares `q==queries[-1]` by string value and skips empty
fragments, so `"select 1;select 1"` emits two envelopes (the first fragment
also runs with `output=True`), and a trailing `";"` (empty last fragment)
emits none at all. -/
theorem c5_multistatement_bug :
    (execute sparkOne "select 1;select 1" true).1.length = 2
    ∧ (execute sparkOne "select 1;" true).1 = []
    ∧ (execute sparkOne "select 1;" true).2 = none := by
  refine ⟨?_, ?_, ?_⟩ <;> decide

/-- C6: the claim says a statement producing no tabular output emits
exactly the null-schema envelope and nothing else; but the null-schema
`output=True` branch lacks a `return`, so control falls through and the
tabular envelope is printed as well: two envelopes for one statement. -/
theorem c6_nullschema_bug :
    execute sparkEmpty "create table t" true =
      ([Envelope.nullSchema "create table t", Envelope.table 0 [] []], none) := by
  decide

end SqlWrapper2

/-- C1: the `state` property returns the cached `_state` with no remote
call when it is FAILED or READY; in every other case (including an absent
cache) it issues a `get_session` call, and when that call errors the value
CLOSED is cached and returned instead of propagating the error. -/
theorem c1_state_hysteresis (w : World) (s : St) :
    ((s.conn._state = some GlueSessionState.FAILED ∨
        s.conn._state = some GlueSessionState.READY) →
      stateProp w s = (s, s.conn._state))
    ∧ (¬(s.conn._state = some GlueSessionState.FAILED ∨
        s.conn._state = some GlueSessionState.READY) →
      ((stateProp w s).1.effs = s.effs ++ [Eff.getSession s.conn.session_id]
       ∧ (w.gets s.getCount = Except.error () →
          (stateProp w s).2 = some GlueSessionState.CLOSED ∧
          (stateProp w s).1.conn._state = some GlueSessionState.CLOSED))) := by
  constructor
  · intro h
    simp [stateProp, h]
  · intro h
    unfold stateProp
    rw [if_neg h]
    cases hg : w.gets s.getCount with
    | ok status => simp [hg]
    | error u => simp [hg]

/-- C1 witness: at a cached-READY connection the property returns the
cache and leaves the state (hence the effect trace) untouched; at a fresh
connection whose `get_session` errors, a remote call is traced and CLOSED
is returned and cached. -/
theorem c1_state_hysteresis_witness :
    (sReady.conn._state = some GlueSessionState.FAILED ∨
      sReady.conn._state = some GlueSessionState.READY)
    ∧ stateProp wErr sReady = (sReady, sReady.conn._state)
    ∧ ((stateProp wErr sFresh).1.effs =
        sFresh.effs ++ [Eff.getSession sFresh.conn.session_id]
       ∧ ((stateProp wErr sFresh).2 = some GlueSessionState.CLOSED
          ∧ (stateProp wErr sFresh).1.conn._state = some GlueSessionState.CLOSED)) :=
  ⟨by decide,
   (c1_state_hysteresis wErr sReady).1 (by decide),
   ⟨((c1_state_hysteresis wErr sFresh).2 (by decide)).1,
    ((c1_state_hysteresis wErr sFresh).2 (by decide)).2 rfl⟩⟩

/-- C4: when the `create_session` remote call raises, `connect()` (via
`_start_session`) caches FAILED and raises `FailedToConnectException`
(the spec's `ConnectFailure`); the resulting effect trace grows by exactly
the one creation attempt — no poll-loop `get_session` call and no retry. -/
theorem c4_create_failure (w : World) (e : ℕ → ℚ) (uuid : String) (fuel : ℕ)
    (s : St)
    (hid : truthy s.conn.credentials.session_id = false)
    (hc : w.create = Except.error ()) :
    connect w e uuid fuel s =
      Outcome.raised
        { s with conn := { s.conn with _state := some GlueSessionState.FAILED },
                 effs := s.effs ++ [Eff.createSession ("dbt-glue-" ++ uuid)] }
        GlueErr.failedToConnect := by
  simp [connect, hid, startSession, hc]

/-- C4 witness: a fresh connection in a world whose session creation is
rejected. -/
theorem c4_create_failure_witness :
    truthy sFresh.conn.credentials.session_id = false
    ∧ wCreateFail.create = Except.error ()
    ∧ connect wCreateFail eStar "u" 3 sFresh =
        Outcome.raised
          { sFresh with
              conn := { sFresh.conn with _state := some GlueSessionState.FAILED },
              effs := sFresh.effs ++ [Eff.createSession ("dbt-glue-" ++ "u")] }
          GlueErr.failedToConnect :=
  ⟨by decide, rfl, c4_create_failure wCreateFail eStar "u" 3 sFresh (by decide) rfl⟩

/-- C7: with a truthy recorded session id, `close_session()` requests the
remote deletion of that session (whether or not the remote call then
raises); with no recorded id it is a no-op that cannot raise — so a second
call in a row, when no session id remains, returns normally as well. -/
theorem c7_close_session_idempotent (w w' : World) (s : St) :
    (∀ sid, s.conn.credentials.session_id = some sid → sid ≠ "" →
      (close_session w s =
          Outcome.ok { s with effs := s.effs ++ [Eff.deleteSession sid] } ()
        ∨ close_session w s =
          Outcome.raised { s with effs := s.effs ++ [Eff.deleteSession sid] }
            GlueErr.clientError))
    ∧ (truthy s.conn.credentials.session_id = false →
        close_session w s = Outcome.ok s ()
        ∧ close_session w' s = Outcome.ok s ()) := by
  constructor
  · intro sid hs hne
    simp only [close_session, hs]
    rw [if_neg (by simpa using hne)]
    cases hd : w.delete with
    | ok u => left; rfl
    | error u => right; rfl
  · intro h
    cases hs : s.conn.credentials.session_id with
    | none => constructor <;> simp [close_session, hs]
    | some sid =>
      have he : sid = "" := by
        rw [hs] at h
        simpa [truthy] using h
      subst he
      constructor <;> simp [close_session, hs]

/-- C7 witness: deletion is requested for the recorded id `sid-1`; on a
connection with no recorded id, two consecutive calls both return
normally. -/
theorem c7_close_session_idempotent_witness :
    (close_session wErr sReady =
        Outcome.ok { sReady with effs := sReady.effs ++ [Eff.deleteSession "sid-1"] } ()
      ∨ close_session wErr sReady =
        Outcome.raised { sReady with effs := sReady.effs ++ [Eff.deleteSession "sid-1"] }
          GlueErr.clientError)
    ∧ (close_session wErr sFresh = Outcome.ok sFresh ()
       ∧ close_session wStuck sFresh = Outcome.ok sFresh ()) :=
  ⟨(c7_close_session_idempotent wErr wStuck sReady).1 "sid-1" rfl (by decide),
   (c7_close_session_idempotent wErr wStuck sFresh).2 (by decide)⟩

/-- C9: `close_session()` never mutates the connection object: whatever the
outcome (normal return or a propagated remote error), the connection —
credentials, `_session`, `_state`, and in particular the recorded current
session id — is exactly the one it was called with; only the remote
deletion request is added to the trace. -/
theorem c9_close_session_frame (w : World) (s : St) :
    ∃ s', outSt (close_session w s) = some s'
      ∧ s'.conn = s.conn
      ∧ s'.conn.credentials.session_id = s.conn.credentials.session_id := by
  cases hs : s.conn.credentials.session_id with
  | none =>
    refine ⟨s, ?_, rfl, hs⟩
    simp [close_session, hs, outSt]
  | some sid =>
    by_cases he : sid = ""
    · refine ⟨s, ?_, rfl, hs⟩
      simp [close_session, hs, he, outSt]
    · cases hd : w.delete with
      | ok u =>
        refine ⟨{ s with effs := s.effs ++ [Eff.deleteSession sid] }, ?_, rfl, hs⟩
        simp [close_session, hs, he, outSt, hd]
      | error u =>
        refine ⟨{ s with effs := s.effs ++ [Eff.deleteSession sid] }, ?_, rfl, hs⟩
        simp [close_session, hs, he, outSt, hd]

/-- The `cancel()` loop over a statement list, started from any state:
it appends exactly one `cancel_statement` call per RUNNING statement, in
order, and nothing else. -/
theorem cancel_loop (l : List GlueStatementInfo) (s0 : St) :
    l.foldl (fun acc stmt =>
        if stmt.State ∈ ["RUNNING"] then cancel_statement acc stmt.Id else acc) s0 =
      { s0 with effs := s0.effs ++
          ((l.filter (fun t => t.State == "RUNNING")).map
            (fun t => Eff.cancelStatement s0.conn.session_id t.Id)) } := by
  induction l generalizing s0 with
  | nil => simp
  | cons x xs ih =>
    by_cases hx : x.State = "RUNNING"
    · rw [List.foldl_cons, if_pos (by simp [hx])]
      rw [ih (cancel_statement s0 x.Id)]
      simp [cancel_statement, hx]
    · rw [List.foldl_cons, if_neg (by simp [hx])]
      rw [ih s0]
      simp [hx]

/-- C8: `cancel()` lists the statements of the current session and issues
exactly one cancel call for each statement whose state is RUNNING — in
list order — and none for statements in any other state. -/
theorem c8_cancel_running (w : World) (s : St) :
    cancel w s =
      { s with effs := s.effs ++ [Eff.getStatements s.conn.session_id] ++
          ((w.statements.filter (fun t => t.State == "RUNNING")).map
            (fun t => Eff.cancelStatement s.conn.session_id t.Id)) } := by
  unfold cancel
  rw [cancel_loop]

/-- The property `session_id` reads the `Id` stored under the `Session` key. -/
theorem session_id_of (c : GlueConnection) (i : Option String)
    (h : c._session = some i) : c.session_id = i := by
  unfold GlueConnection.session_id
  rw [h]

/-- The `state` property never touches `_session` or the credentials. -/
theorem stateProp_frame (w : World) (s : St) :
    (stateProp w s).1.conn._session = s.conn._session
    ∧ (stateProp w s).1.conn.credentials = s.conn.credentials := by
  unfold stateProp
  split
  · exact ⟨rfl, rfl⟩
  · split <;> exact ⟨rfl, rfl⟩

/-- The `state` property issues no `create_session` call. -/
theorem stateProp_countCreates (w : World) (s : St) :
    countCreates (stateProp w s).1.effs = countCreates s.effs := by
  unfold stateProp
  split
  · rfl
  · split <;> simp [countCreates, List.filter_append]

/-- Whenever `connect()` returns normally, the returned session id has
been written into `credentials.session_id` (the tail of `connect`). -/
theorem afterSession_persist (w : World) (s s' : St) (r : Option String)
    (h : afterSession w s = Outcome.ok s' r) :
    s'.conn.credentials.session_id = r := by
  unfold afterSession at h
  split at h
  · exact Outcome.noConfusion h
  · exact Outcome.noConfusion h
  · injection h with hs hr
    subst hs
    subst hr
    rfl

/-- When the session id is known and the two initialization statements
succeed, `_init_session` plus the tail of `connect` returns that id,
persists it into the credentials, and adds exactly the two statement
executions to the trace. -/
theorem afterSession_ok_of_init (w : World) (s : St) (sid : String)
    (hsid : s.conn.session_id = some sid)
    (h1 : w.init1 = true) (h2 : w.init2 = true) :
    afterSession w s =
      Outcome.ok
        { conn := { s.conn with credentials :=
            { s.conn.credentials with session_id := some sid } },
          getCount := s.getCount,
          effs := s.effs ++ [Eff.runStatement (some sid) StmtCode.sqlproxy]
            ++ [Eff.runStatement (some sid)
                  (StmtCode.useDatabase s.conn.credentials.database)] }
        (some sid) := by
  simp [afterSession, initSession, hsid, h1, h2]

/-- C2: (a) after every normal return of `connect()`, the returned session
id is persisted as the credentials' current session id; (b) on a
connection holding a (truthy) persisted session id `sid`, if the first
`state` read yields a value (no `TypeError`) and the state observed by the
CLOSED check is not CLOSED, then `connect()` returns that same `sid`,
keeps it persisted, and performs no `create_session` call. -/
theorem c2_connect_reuse :
    (∀ (w : World) (e : ℕ → ℚ) (uuid : String) (fuel : ℕ) (s s' : St)
        (r : Option String),
        connect w e uuid fuel s = Outcome.ok s' r →
        s'.conn.credentials.session_id = r)
    ∧ (∀ (w : World) (e : ℕ → ℚ) (uuid : String) (fuel : ℕ) (s : St) (sid : String),
        s.conn.credentials.session_id = some sid → sid ≠ "" →
        (stateProp w (reuseSt s)).2 ≠ none →
        (stateProp w (stateProp w (reuseSt s)).1).2 ≠ some GlueSessionState.CLOSED →
        w.init1 = true → w.init2 = true →
        ∃ s', connect w e uuid fuel s = Outcome.ok s' (some sid)
          ∧ s'.conn.credentials.session_id = some sid
          ∧ countCreates s'.effs = countCreates s.effs) := by
  constructor
  · intro w e uuid fuel s s' r h
    unfold connect at h
    split at h
    · split at h
      · exact Outcome.noConfusion h
      · exact Outcome.noConfusion h
      · exact afterSession_persist _ _ _ _ h
    · split at h
      · exact Outcome.noConfusion h
      · split at h
        · split at h
          · exact Outcome.noConfusion h
          · exact Outcome.noConfusion h
          · exact afterSession_persist _ _ _ _ h
        · exact afterSession_persist _ _ _ _ h
  · intro w e uuid fuel s sid hsid hne hv1 hv2 hi1 hi2
    have hsid3 : (stateProp w (stateProp w (reuseSt s)).1).1.conn.session_id = some sid := by
      apply session_id_of
      rw [(stateProp_frame w (stateProp w (reuseSt s)).1).1,
          (stateProp_frame w (reuseSt s)).1]
      show some s.conn.credentials.session_id = some (some sid)
      rw [hsid]
    have key := afterSession_ok_of_init w
      (stateProp w (stateProp w (reuseSt s)).1).1 sid hsid3 hi1 hi2
    have hconn : connect w e uuid fuel s =
        afterSession w (stateProp w (stateProp w (reuseSt s)).1).1 := by
      unfold connect
      rw [if_neg (by rw [hsid]; simp [truthy, hne])]
      rw [if_neg hv1, if_neg hv2]
    rw [key] at hconn
    have hcount : countCreates
        ((stateProp w (stateProp w (reuseSt s)).1).1.effs
          ++ [Eff.runStatement (some sid) StmtCode.sqlproxy]
          ++ [Eff.runStatement (some sid)
                (StmtCode.useDatabase
                  (stateProp w (stateProp w (reuseSt s)).1).1.conn.credentials.database)]) =
        countCreates s.effs := by
      have k1 := stateProp_countCreates w (stateProp w (reuseSt s)).1
      have k2 := stateProp_countCreates w (reuseSt s)
      unfold countCreates at k1 k2 ⊢
      simp only [List.filter_append, List.length_append]
      rw [k1, k2]
      simp [reuseSt]
    exact ⟨_, hconn, rfl, hcount⟩

/-- C2 witness: a connection that has just connected successfully
(persisted id `sid-1`, cached READY): a second `connect()` returns `sid-1`
again, keeps it persisted, and performs no `create_session` call. -/
theorem c2_connect_reuse_witness :
    sReady.conn.credentials.session_id = some "sid-1"
    ∧ ∃ s', connect wStuck eStar "u" 3 sReady = Outcome.ok s' (some "sid-1")
        ∧ s'.conn.credentials.session_id = some "sid-1"
        ∧ countCreates s'.effs = countCreates sReady.effs :=
  ⟨rfl,
   c2_connect_reuse.2 wStuck eStar "u" 3 sReady "sid-1" rfl (by decide)
     (by decide) (by decide) rfl rfl⟩

/-- When neither the cache nor any remote response is READY, a `state`
read does not yield READY and preserves that invariant. -/
theorem stateProp_not_ready (w : World) (s : St)
    (hw : ∀ n st, w.gets n = Except.ok st → st ≠ some GlueSessionState.READY)
    (hs : s.conn._state ≠ some GlueSessionState.READY) :
    (stateProp w s).2 ≠ some GlueSessionState.READY
    ∧ (stateProp w s).1.conn._state ≠ some GlueSessionState.READY := by
  unfold stateProp
  split
  · exact ⟨hs, hs⟩
  · cases hg : w.gets s.getCount with
    | ok status =>
      have hne := hw s.getCount status hg
      exact ⟨hne, hne⟩
    | error u =>
      refine ⟨fun h => ?_, fun h => ?_⟩ <;>
        exact absurd (Option.some.inj h) (by decide)

/-- If no `state` read ever yields READY, the poll loop raises
`TimeoutError` exactly at the first iteration whose elapsed time exceeds
the deadline (having evaluated `state` once per iteration up to there). -/
theorem pollLoop_timeout_at (w : World) (e : ℕ → ℚ) (T : ℕ)
    (hw : ∀ n st, w.gets n = Except.ok st → st ≠ some GlueSessionState.READY) :
    ∀ (j fuel k : ℕ) (s : St),
      s.conn._state ≠ some GlueSessionState.READY →
      (T : ℚ) < e (k + j) →
      (∀ i, i < j → ¬ (T : ℚ) < e (k + i)) →
      j < fuel →
      ∃ s', pollLoop w e T fuel k s = (s', PollExit.timedOut (k + j)) := by
  intro j
  induction j with
  | zero =>
    intro fuel k s hs he _ hf
    cases fuel with
    | zero => exact absurd hf (Nat.not_lt_zero 0)
    | succ f =>
      obtain ⟨h1, _⟩ := stateProp_not_ready w s hw hs
      refine ⟨(stateProp w s).1, ?_⟩
      simp only [pollLoop]
      rw [if_neg h1, if_pos (by simpa using he)]
      rfl
  | succ j ih =>
    intro fuel k s hs he hmin hf
    cases fuel with
    | zero => exact absurd hf (Nat.not_lt_zero _)
    | succ f =>
      obtain ⟨h1, h2⟩ := stateProp_not_ready w s hw hs
      have hk : ¬ (T : ℚ) < e k := by
        have := hmin 0 (Nat.succ_pos j)
        simpa using this
      have he' : (T : ℚ) < e (k + 1 + j) := by
        have hkk : k + 1 + j = k + (j + 1) := by omega
        rw [hkk]
        exact he
      have hmin' : ∀ i, i < j → ¬ (T : ℚ) < e (k + 1 + i) := by
        intro i hi
        have hkk : k + 1 + i = k + (i + 1) := by omega
        rw [hkk]
        exact hmin (i + 1) (by omega)
      obtain ⟨s', hps⟩ := ih f (k + 1) (stateProp w s).1 h2 he' hmin' (by omega)
      refine ⟨s', ?_⟩
      have hkk : k + 1 + j = k + (j + 1) := by omega
      rw [hkk] at hps
      simp only [pollLoop]
      rw [if_neg h1, if_neg hk]
      exact hps

/-- The clock `eStar` exceeds the integer clock from the first sleep on. -/
theorem eStar_gt (k : ℕ) (hk : 1 ≤ k) : (k : ℚ) < eStar k := by
  unfold eStar
  rw [if_neg (by omega)]
  linarith

/-- Before iteration `T`, `eStar` never exceeds a deadline `T ≥ 1`. -/
theorem eStar_le (T i : ℕ) (hi : i < T) : ¬ (T : ℚ) < eStar i := by
  unfold eStar
  by_cases h0 : i = 0
  · rw [if_pos h0]
    push_neg
    exact_mod_cast Nat.zero_le T
  · rw [if_neg h0]
    push_neg
    have hle : (i : ℚ) + 1 ≤ T := by exact_mod_cast hi
    linarith

/-- Unfolding `_start_session` after a successful `create_session` is the poll loop
started on the post-creation state. -/
theorem startSession_ok_eq (w : World) (e : ℕ → ℚ) (uuid : String) (fuel : ℕ)
    (s : St) (resp : Option String) (hc : w.create = Except.ok resp) :
    startSession w e uuid fuel s =
      match pollLoop w e s.conn.credentials.session_provisionning_timeout_in_seconds
          fuel 0 (createdSt ("dbt-glue-" ++ uuid) resp s) with
      | (s2, PollExit.ready sess) => Outcome.ok s2 sess
      | (s2, PollExit.timedOut _) => Outcome.raised s2 GlueErr.timeoutError
      | (_, PollExit.fuelOut) => Outcome.diverge := by
  simp only [startSession, hc]
  rfl

/-- C3: on a fresh connection whose session never reports READY, with a
clock whose elapsed value strictly exceeds `k` seconds from the first
one-second sleep on (`waiter.wait(1)` sleeps at least one second per
iteration plus overhead), `connect()` raises `TimeoutError` (the spec's
`TimeoutFailure`): the deadline is re-checked on every iteration, the loop
stops at the first iteration `k` whose elapsed time exceeds the timeout
`T`, so at most `T + 1` `state` checks happen (`k + 1 ≤ T + 1`) — and with
the canonical clock `eStar` exactly `T + 1` checks happen (the loop times
out at iteration `k = T`). -/
theorem c3_connect_timeout (w : World) (e : ℕ → ℚ) (uuid : String) (fuel : ℕ)
    (s : St) (resp : Option String)
    (hid : truthy s.conn.credentials.session_id = false)
    (hstate : s.conn._state ≠ some GlueSessionState.READY)
    (hc : w.create = Except.ok resp)
    (hw : ∀ n st, w.gets n = Except.ok st → st ≠ some GlueSessionState.READY)
    (hclock : ∀ k : ℕ, 1 ≤ k → (k : ℚ) < e k)
    (hT : 1 ≤ s.conn.credentials.session_provisionning_timeout_in_seconds)
    (hfuel : s.conn.credentials.session_provisionning_timeout_in_seconds + 2 ≤ fuel) :
    (∃ s' k, connect w e uuid fuel s = Outcome.raised s' GlueErr.timeoutError
      ∧ pollLoop w e s.conn.credentials.session_provisionning_timeout_in_seconds
          fuel 0 (createdSt ("dbt-glue-" ++ uuid) resp s) = (s', PollExit.timedOut k)
      ∧ k + 1 ≤ s.conn.credentials.session_provisionning_timeout_in_seconds + 1)
    ∧ (∃ s2, connect w eStar uuid fuel s = Outcome.raised s2 GlueErr.timeoutError
      ∧ pollLoop w eStar s.conn.credentials.session_provisionning_timeout_in_seconds
          fuel 0 (createdSt ("dbt-glue-" ++ uuid) resp s) =
          (s2, PollExit.timedOut
            s.conn.credentials.session_provisionning_timeout_in_seconds)) := by
  have hcst : (createdSt ("dbt-glue-" ++ uuid) resp s).conn._state ≠
      some GlueSessionState.READY := hstate
  have hex : ∃ j,
      ((s.conn.credentials.session_provisionning_timeout_in_seconds : ℚ)) < e (0 + j) :=
    ⟨s.conn.credentials.session_provisionning_timeout_in_seconds,
     by simpa using hclock _ hT⟩
  have hjle : Nat.find hex ≤ s.conn.credentials.session_provisionning_timeout_in_seconds :=
    Nat.find_min' hex (by simpa using hclock _ hT)
  obtain ⟨s', hps⟩ := pollLoop_timeout_at w e
    s.conn.credentials.session_provisionning_timeout_in_seconds hw (Nat.find hex)
    fuel 0 (createdSt ("dbt-glue-" ++ uuid) resp s) hcst (Nat.find_spec hex)
    (fun i hi => Nat.find_min hex hi) (by omega)
  have hstart : startSession w e uuid fuel s = Outcome.raised s' GlueErr.timeoutError := by
    rw [startSession_ok_eq w e uuid fuel s resp hc, hps]
  have hconn : connect w e uuid fuel s = Outcome.raised s' GlueErr.timeoutError := by
    unfold connect
    rw [if_pos hid, hstart]
  have heB : ((s.conn.credentials.session_provisionning_timeout_in_seconds : ℚ)) <
      eStar (0 + s.conn.credentials.session_provisionning_timeout_in_seconds) := by
    simpa using eStar_gt _ hT
  have hminB : ∀ i, i < s.conn.credentials.session_provisionning_timeout_in_seconds →
      ¬ ((s.conn.credentials.session_provisionning_timeout_in_seconds : ℚ)) < eStar (0 + i) := by
    intro i hi
    simpa using eStar_le _ i hi
  obtain ⟨s2, hps2⟩ := pollLoop_timeout_at w eStar
    s.conn.credentials.session_provisionning_timeout_in_seconds hw
    s.conn.credentials.session_provisionning_timeout_in_seconds
    fuel 0 (createdSt ("dbt-glue-" ++ uuid) resp s) hcst heB hminB (by omega)
  have hstart2 : startSession w eStar uuid fuel s =
      Outcome.raised s2 GlueErr.timeoutError := by
    rw [startSession_ok_eq w eStar uuid fuel s resp hc, hps2]
  have hconn2 : connect w eStar uuid fuel s = Outcome.raised s2 GlueErr.timeoutError := by
    unfold connect
    rw [if_pos hid, hstart2]
  exact ⟨⟨s', 0 + Nat.find hex, hconn, hps, by omega⟩,
         ⟨s2, hconn2, by simpa using hps2⟩⟩

/-- C3 witness: a fresh connection with a 1-second provisioning timeout
in a world stuck in PROVISIONING, polled with the canonical clock: the
loop raises `TimeoutError` at iteration 1 after exactly 2 = timeout + 1
state checks. -/
theorem c3_connect_timeout_witness :
    (∃ s' k, connect wStuck eStar "u" 3 sFresh = Outcome.raised s' GlueErr.timeoutError
      ∧ pollLoop wStuck eStar
          sFresh.conn.credentials.session_provisionning_timeout_in_seconds
          3 0 (createdSt ("dbt-glue-" ++ "u") (some "sid-new") sFresh) =
          (s', PollExit.timedOut k)
      ∧ k + 1 ≤ sFresh.conn.credentials.session_provisionning_timeout_in_seconds + 1)
    ∧ (∃ s2, connect wStuck eStar "u" 3 sFresh = Outcome.raised s2 GlueErr.timeoutError
      ∧ pollLoop wStuck eStar
          sFresh.conn.credentials.session_provisionning_timeout_in_seconds
          3 0 (createdSt ("dbt-glue-" ++ "u") (some "sid-new") sFresh) =
          (s2, PollExit.timedOut
            sFresh.conn.credentials.session_provisionning_timeout_in_seconds)) :=
  c3_connect_timeout wStuck eStar "u" 3 sFresh (some "sid-new") (by decide) (by decide)
    rfl (fun n st h => by injection h with h2; subst h2; decide)
    eStar_gt (by decide) (by decide)

/-- C10: every column returned by `get_columns_in_relation` has a name
outside the five Hudi metadata column names, whatever the underlying
`describe` statement returned. -/
theorem c10_hudi_filter (fetched : Option (List (String × String))) (c : Column)
    (hc : c ∈ get_columns_in_relation fetched) :
    c.name ∉ HUDI_METADATA_COLUMNS := by
  unfold get_columns_in_relation at hc
  have h2 := (List.mem_filter.mp hc).2
  simpa using h2

/-- C10 witness: a describe result containing a regular column and all
five Hudi metadata columns; the regular column is in the output, and the
theorem applies to it. -/
theorem c10_hudi_filter_witness :
    (⟨"id", "int"⟩ : Column) ∈ get_columns_in_relation
        (some [("id", "int"), ("_hoodie_commit_time", "string"),
               ("_hoodie_commit_seqno", "string"), ("_hoodie_record_key", "string"),
               ("_hoodie_partition_path", "string"), ("_hoodie_file_name", "string")])
    ∧ Column.name ⟨"id", "int"⟩ ∉ HUDI_METADATA_COLUMNS :=
  ⟨by decide,
   c10_hudi_filter
     (some [("id", "int"), ("_hoodie_commit_time", "string"),
            ("_hoodie_commit_seqno", "string"), ("_hoodie_record_key", "string"),
            ("_hoodie_partition_path", "string"), ("_hoodie_file_name", "string")])
     ⟨"id", "int"⟩ (by decide)⟩

end DbtGlue
